import Mathlib

/-!
Verification development for the Twilio ↔ OpenAI realtime voice bridge
(`app/services/session_manager.py`, `app/services/openai_client.py`,
`app/services/function_handlers.py`, `app/websocket/connection_manager.py`).

The Python services are shallowly embedded as pure Lean functions: each
async handler becomes a function from the bridge/client state to the new
state paired with the list of outbound commands it emits; external effects
(the network outcome of a connection attempt, `json.loads` success on an
argument string, the registered handler's run outcome) are passed in as
explicit parameters.
-/

/-! ## Python scalar values and `SessionManager._safe_int` -/

/-- A JSON-ish scalar as it reaches `_safe_int`: Python `None`, an `int`,
a `str`, or some other non-int-coercible object (for which `int(value)`
raises `TypeError`). -/
inductive PyVal where
  | none
  | int (n : Int)
  | str (s : String)
  | other
deriving DecidableEq, Repr

/-- Fold a run of decimal digit characters into a natural number;
`Option.none` as soon as a non-digit appears or the run is empty. -/
def parseNatDigits (cs : List Char) : Option Nat :=
  match cs with
  | [] => Option.none
  | _ =>
    cs.foldl
      (fun acc? c => acc?.bind fun acc =>
        if 48 ≤ c.toNat ∧ c.toNat ≤ 57 then some (acc * 10 + (c.toNat - 48))
        else Option.none)
      (some 0)

/-- Python `int(s)` on a string: an optionally `-`-signed run of decimal
digits parses to that integer, anything else raises `ValueError`
(modelled as `Option.none`). -/
def parseIntLit (s : String) : Option Int :=
  match s.toList with
  | [] => Option.none
  | c :: rest =>
    if c = '-' then (parseNatDigits rest).map fun n => -(n : Int)
    else (parseNatDigits (c :: rest)).map fun n => (n : Int)

/-- `SessionManager._safe_int(value, default=0)`: `int(value)` when `value`
is not `None`, with `ValueError`/`TypeError` (non-numeric string, other
object) falling back to the default 0. -/
def safeInt (v : PyVal) : Int :=
  match v with
  | .none => 0
  | .int n => n
  | .str s =>
    match parseIntLit s with
    | some n => n
    | Option.none => 0
  | .other => 0

/-- Embed an `Optional[int]` Python field as the `PyVal` that `_safe_int`
receives when the field is passed to it. -/
def PyVal.ofOptInt : Option Int → PyVal
  | Option.none => .none
  | some n => .int n

/-- Python truthiness test `not x` for an `Optional[str]` value:
`None` and the empty string are falsy. -/
def pyFalsyStr : Option String → Bool
  | Option.none => true
  | some s => s = ""

/-- Python `x or 0` for an `Optional[int]` value: `None` and `0` are falsy
and yield `0`, any other int is returned unchanged. -/
def pyIntOr0 : Option Int → Int
  | Option.none => 0
  | some n => if n = 0 then 0 else n

/-! ## Session state and bridge (`SessionManager`) -/

/-- `app.models.schemas.SessionState` (the `saved_config` field is carried
by the speech-endpoint client model below and not needed here). -/
structure SessionState where
  stream_sid : Option String
  latest_media_timestamp : Option Int
  response_start_timestamp : Option Int
  last_assistant_item : Option String
deriving DecidableEq, Repr

/-- The default-constructed `SessionState()`: every field `None`. -/
def SessionState.init : SessionState :=
  ⟨Option.none, Option.none, Option.none, Option.none⟩

/-- The mutable attributes of `SessionManager` that the handlers consult:
its `SessionState` plus the presence/connectivity of the three legs
(`twilio_websocket`, `frontend_websocket`, `openai_client` and the
client's `is_connected` flag). -/
structure Bridge where
  state : SessionState
  twilioConnected : Bool
  frontendConnected : Bool
  openaiPresent : Bool
  openaiConnected : Bool
deriving DecidableEq, Repr

/-- Outbound speech-endpoint commands the bridge can send
(`openai_client.send_message` payloads). -/
inductive OpenAIOut where
  | appendAudio (audio : String)
  | truncate (itemId : String) (contentIndex : Nat) (audioEndMs : Int)
  | itemCreate (callId : String) (output : String)
  | responseCreate
deriving DecidableEq, Repr

/-- Outbound telephony-leg commands (`_send_to_twilio` payloads). -/
inductive TwilioOut where
  | media (streamSid : String) (payload : String)
  | mark (streamSid : String)
  | clear (streamSid : String)
deriving DecidableEq, Repr

/-- Inbound speech-endpoint events consumed by `handle_openai_message`. -/
inductive OpenAIIn where
  | speechStarted
  | audioDelta (itemId : Option String) (delta : String)
  | outputItemDone (itemType : Option String) (name : Option String)
      (arguments : Option String) (callId : Option String)
  | otherEvent
deriving DecidableEq, Repr

/-- A command emitted by a bridge handler: a send to the speech endpoint,
to the telephony leg, or the verbatim mirror of a speech-endpoint event to
the frontend observer leg. -/
inductive Command where
  | toOpenAI (m : OpenAIOut)
  | toTwilio (m : TwilioOut)
  | toFrontendMirror (m : OpenAIIn)
deriving DecidableEq, Repr

/-- A Twilio `media` frame's `media` object: `.get("timestamp", 0)` and
`.get("payload", "")` are applied at the use sites. -/
structure TwilioMedia where
  timestamp : Option PyVal
  payload : Option String
deriving DecidableEq, Repr

/-- `SessionManager._handle_twilio_media`: store
`_safe_int(media.get("timestamp", 0))` into `latest_media_timestamp`; when
an OpenAI client exists and is connected, forward the payload as an
`input_audio_buffer.append` command. -/
def handleTwilioMedia (b : Bridge) (m : TwilioMedia) : Bridge × List Command :=
  let timestamp := m.timestamp.getD (PyVal.int 0)
  let b' := { b with state := { b.state with latest_media_timestamp := some (safeInt timestamp) } }
  if b.openaiPresent && b.openaiConnected then
    (b', [Command.toOpenAI (.appendAudio (m.payload.getD ""))])
  else
    (b', [])

/-- `SessionManager._try_connect_openai`: no-op without a `stream_sid` or
with an already-connected client; otherwise a fresh `OpenAIClient` is
installed and `connect()` is awaited, whose network outcome is the
`connectOutcome` parameter. -/
def tryConnectOpenAI (connectOutcome : Bool) (b : Bridge) : Bridge :=
  if pyFalsyStr b.state.stream_sid then b
  else if b.openaiPresent && b.openaiConnected then b
  else { b with openaiPresent := true, openaiConnected := connectOutcome }

/-- `SessionManager._handle_twilio_start`: record the stream id, reset the
timing/item fields (`latest_media_timestamp = 0`, the other two `None`),
then lazily connect to OpenAI. -/
def handleTwilioStart (connectOutcome : Bool) (b : Bridge) (streamSid : Option String) : Bridge :=
  let b' := { b with state :=
    { stream_sid := streamSid
      latest_media_timestamp := some 0
      last_assistant_item := Option.none
      response_start_timestamp := Option.none } }
  tryConnectOpenAI connectOutcome b'

/-- `SessionManager._handle_audio_delta`: ignored without a telephony leg
or stream id; captures `response_start_timestamp = latest_media_timestamp
or 0` on the first delta of a response; records a truthy `item_id` into
`last_assistant_item`; forwards a non-empty payload as a `media` command
immediately followed by a `mark` command. -/
def handleAudioDelta (b : Bridge) (itemId : Option String) (delta : String) :
    Bridge × List Command :=
  if !b.twilioConnected || pyFalsyStr b.state.stream_sid then
    (b, [])
  else
    let st1 :=
      if b.state.response_start_timestamp = Option.none then
        { b.state with response_start_timestamp := some (pyIntOr0 b.state.latest_media_timestamp) }
      else b.state
    let st2 :=
      if pyFalsyStr itemId then st1
      else { st1 with last_assistant_item := itemId }
    let sid := st2.stream_sid.getD ""
    let cmds :=
      if delta = "" then []
      else [Command.toTwilio (.media sid delta), Command.toTwilio (.mark sid)]
    ({ b with state := st2 }, cmds)

/-- `SessionManager._handle_truncation`: no-op when `last_assistant_item`
is falsy or `response_start_timestamp` is `None`; otherwise compute
`audio_end_ms = max(_safe_int(latest) - _safe_int(response_start), 0)`,
send `conversation.item.truncate` when an OpenAI client exists, send
`clear` when the telephony leg and stream id exist, and reset both fields
to `None` unconditionally. -/
def handleTruncation (b : Bridge) : Bridge × List Command :=
  if pyFalsyStr b.state.last_assistant_item || b.state.response_start_timestamp.isNone then
    (b, [])
  else
    let latestTimestamp := safeInt (PyVal.ofOptInt b.state.latest_media_timestamp)
    let responseTimestamp := safeInt (PyVal.ofOptInt b.state.response_start_timestamp)
    let elapsedMs := latestTimestamp - responseTimestamp
    let audioEndMs := max elapsedMs 0
    let truncCmds :=
      if b.openaiPresent then
        [Command.toOpenAI (.truncate (b.state.last_assistant_item.getD "") 0 audioEndMs)]
      else []
    let clearCmds :=
      if b.twilioConnected && !(pyFalsyStr b.state.stream_sid) then
        [Command.toTwilio (.clear (b.state.stream_sid.getD ""))]
      else []
    let b' := { b with state :=
      { b.state with last_assistant_item := Option.none, response_start_timestamp := Option.none } }
    (b', truncCmds ++ clearCmds)

/-! ## Function-call round trip (`FunctionHandlerService`) -/

/-- A flat JSON object of string fields, the shape of every error payload
built by `FunctionHandlerService`. -/
structure JsonObj where
  fields : List (String × String)
deriving DecidableEq, Repr

/-- Escaping of `"` and `\` as performed by `json.dumps` on the strings. -/
def jsonEscape (s : String) : String :=
  String.join (s.toList.map fun c =>
    if c = '"' then "\\\"" else if c = '\\' then "\\\\" else String.singleton c)

/-- `json.dumps` on a flat object of string values, with the default
`", "` and `": "` separators. -/
def JsonObj.dumps (j : JsonObj) : String :=
  "\x7b" ++ String.intercalate ", "
    (j.fields.map fun p => "\"" ++ jsonEscape p.1 ++ "\": \"" ++ jsonEscape p.2 ++ "\"")
    ++ "\x7d"

/-- Whether the object carries a field with the given key. -/
def JsonObj.hasKey (j : JsonObj) (k : String) : Bool :=
  j.fields.any fun p => p.1 = k

/-- Outcome of awaiting a registered handler: a result string or a raised
exception message. -/
inductive RunOutcome where
  | ok (result : String)
  | raised (msg : String)
deriving DecidableEq, Repr

/-- The function names registered by
`FunctionHandlerService._register_default_functions`. -/
def defaultRegisteredFunctions : List String := ["get_weather_from_coords"]

/-- `FunctionHandlerService.handle_function_call(name, arguments)`:
unknown names and unparsable argument JSON return `json.dumps` of an
object with an `error` key; a registered handler's raised exception is
also converted to such an object; otherwise the handler's result string
is returned.  `json.loads` success on the argument string is the
`parsedArgs` oracle, the handler's run the `run` oracle. -/
def handleFunctionCall (registered : List String) (name : String)
    (parsedArgs : Option Unit) (run : RunOutcome) : String :=
  if name ∈ registered then
    match parsedArgs with
    | Option.none => JsonObj.dumps ⟨[("error", "Invalid JSON arguments for function call")]⟩
    | some _ =>
      match run with
      | .ok r => r
      | .raised m => JsonObj.dumps ⟨[("error", "Error running function " ++ name ++ ": " ++ m)]⟩
  else
    JsonObj.dumps ⟨[("error", "No handler found for function: " ++ name)]⟩

/-- `SessionManager._handle_function_call(item)`: run the function handler
service on `item.get("name", "")` / `item.get("arguments", "{}")`, then —
when an OpenAI client exists — send a `conversation.item.create` command
carrying the result as a `function_call_output` item for
`item.get("call_id", "")`, immediately followed by `response.create`. -/
def handleFunctionCallItem (parse : String → Option Unit) (run : RunOutcome)
    (b : Bridge) (name arguments callId : Option String) : Bridge × List Command :=
  let fnName := name.getD ""
  let fnArgs := arguments.getD "\x7b\x7d"
  let fnCallId := callId.getD ""
  let result := handleFunctionCall defaultRegisteredFunctions fnName (parse fnArgs) run
  if b.openaiPresent then
    (b, [Command.toOpenAI (.itemCreate fnCallId result), Command.toOpenAI .responseCreate])
  else
    (b, [])

/-- `SessionManager._handle_output_item_done`: dispatch to the
function-call handler exactly when `item.get("type") == "function_call"`. -/
def handleOutputItemDone (parse : String → Option Unit) (run : RunOutcome)
    (b : Bridge) (itemType name arguments callId : Option String) : Bridge × List Command :=
  if itemType = some "function_call" then
    handleFunctionCallItem parse run b name arguments callId
  else
    (b, [])

/-- `SessionManager.handle_openai_message`: mirror every event to the
frontend observer leg when one is connected, then dispatch on the event
type (`speech_started` → truncation, `response.audio.delta`,
`response.output_item.done`). -/
def handleOpenAIMessage (parse : String → Option Unit) (run : RunOutcome)
    (b : Bridge) (msg : OpenAIIn) : Bridge × List Command :=
  let mirror := if b.frontendConnected then [Command.toFrontendMirror msg] else []
  let (b', cmds) :=
    match msg with
    | .speechStarted => handleTruncation b
    | .audioDelta itemId delta => handleAudioDelta b itemId delta
    | .outputItemDone itemType name arguments callId =>
        handleOutputItemDone parse run b itemType name arguments callId
    | .otherEvent => (b, [])
  (b', mirror ++ cmds)

/-! ## Speech-endpoint client (`OpenAIClient`) -/

/-- `app.models.schemas.OpenAISessionConfig`: the built-in default session
configuration, one field per Pydantic field. -/
structure OpenAISessionConfig where
  modalities : List String
  turn_detection : List (String × String)
  voice : String
  input_audio_transcription : List (String × String)
  input_audio_format : String
  output_audio_format : String
deriving DecidableEq, Repr

/-- The default-constructed `OpenAISessionConfig()`. -/
def OpenAISessionConfig.default : OpenAISessionConfig :=
  { modalities := ["text", "audio"]
    turn_detection := [("type", "server_vad")]
    voice := "ash"
    input_audio_transcription := [("model", "whisper-1")]
    input_audio_format := "g711_ulaw"
    output_audio_format := "g711_ulaw" }

/-- A caller-supplied session configuration dict: an optional override per
known key (`None` = key absent from the dict). -/
structure SessionConfigOverrides where
  modalities : Option (List String)
  turn_detection : Option (List (String × String))
  voice : Option String
  input_audio_transcription : Option (List (String × String))
  input_audio_format : Option String
  output_audio_format : Option String
deriving DecidableEq, Repr

/-- The empty override dict (`self.session_config or {}` with no saved
config). -/
def SessionConfigOverrides.empty : SessionConfigOverrides :=
  ⟨Option.none, Option.none, Option.none, Option.none, Option.none, Option.none⟩

/-- `OpenAIClient._send_session_update`'s merge:
`session_data = OpenAISessionConfig().model_dump(); session_data.update(config)`
— every caller-supplied key overrides the default, every unspecified key
keeps its default. -/
def mergeSessionConfig (ov : SessionConfigOverrides) : OpenAISessionConfig :=
  { modalities := ov.modalities.getD OpenAISessionConfig.default.modalities
    turn_detection := ov.turn_detection.getD OpenAISessionConfig.default.turn_detection
    voice := ov.voice.getD OpenAISessionConfig.default.voice
    input_audio_transcription :=
      ov.input_audio_transcription.getD OpenAISessionConfig.default.input_audio_transcription
    input_audio_format := ov.input_audio_format.getD OpenAISessionConfig.default.input_audio_format
    output_audio_format := ov.output_audio_format.getD OpenAISessionConfig.default.output_audio_format }

/-- The observable steps of one `OpenAIClient.connect()` invocation, in
execution order.  `awaitListenLoopCompletion` is the step
`await asyncio.create_task(self._listen_messages())`, which suspends
`connect` until `_listen_messages` has returned (i.e. until the websocket
connection is closed or errors); `spawnListenLoopInBackground` is the
non-blocking spawn (`asyncio.create_task` without the outer `await`) that
the specification describes — it never occurs in the source. -/
inductive ConnectStep where
  | openTransport
  | setConnected (flag : Bool)
  | resetAttempts
  | awaitListenLoopCompletion
  | spawnListenLoopInBackground
  | sendSessionUpdate (session : OpenAISessionConfig)
  | invokeOnConnected
  | handleConnectionFailure
  | returnResult (success : Bool)
deriving DecidableEq, Repr

/-- `OpenAIClient.connect()` as its step trace, with the network outcome
of `websockets.connect` as the `transportOk` parameter and the client's
`session_config` (`None` → empty dict) as `ov`.  On transport success the
source sets `is_connected = True`, resets the attempt counter, **awaits
the listener task to completion**, then sends the merged session update,
invokes `on_connected` (exceptions logged), and returns `True`.  On
failure it marks disconnected, runs `_handle_connection_failure`, and
returns `False`. -/
def connectSteps (transportOk : Bool) (ov : SessionConfigOverrides) : List ConnectStep :=
  if transportOk then
    [ConnectStep.openTransport, ConnectStep.setConnected true, ConnectStep.resetAttempts,
     ConnectStep.awaitListenLoopCompletion,
     ConnectStep.sendSessionUpdate (mergeSessionConfig ov),
     ConnectStep.invokeOnConnected, ConnectStep.returnResult true]
  else
    [ConnectStep.openTransport, ConnectStep.setConnected false,
     ConnectStep.handleConnectionFailure, ConnectStep.returnResult false]

/-- The reconnect-relevant fields of `OpenAIClient`. -/
structure ClientState where
  autoReconnect : Bool
  maxReconnectAttempts : Nat
  reconnectDelay : ℚ
  maxReconnectDelay : ℚ
  currentReconnectAttempts : Nat
  isConnected : Bool
deriving DecidableEq, Repr

/-- Python `min(a, b)` on two rationals, written with the executable
decidable order on `ℚ` so that concrete runs evaluate. -/
def pyMin (a b : ℚ) : ℚ := if a ≤ b then a else b

theorem pyMin_eq_min (a b : ℚ) : pyMin a b = min a b := (min_def a b).symm

/-- One iteration of `OpenAIClient._reconnect_loop`: the attempt number
(the counter value after `self.current_reconnect_attempts += 1`), the
backoff delay slept before `connect()` is awaited, and the attempt's
outcome. -/
structure ReconnectAttempt where
  n : Nat
  delay : ℚ
  result : Bool
deriving DecidableEq, Repr

/-- `OpenAIClient._reconnect_loop` body, with fuel bounding the number of
remaining iterations.  Each iteration: increment the counter, compute
`delay = min(reconnect_delay * 2 ** (attempts - 1), max_reconnect_delay)`,
sleep, await `connect()` (outcome supplied by the `outcomes` oracle,
indexed by attempt number).  A successful `connect()` sets
`is_connected = True` and resets the counter to 0 (inside `connect`), and
the loop breaks; a failed one leaves the loop to re-test its guard
`auto_reconnect and attempts < max_attempts and not is_connected`. -/
def reconnectLoopFuel (outcomes : Nat → Bool) : Nat → ClientState →
    List ReconnectAttempt × ClientState
  | 0, s => ([], s)
  | fuel + 1, s =>
    if s.autoReconnect && s.currentReconnectAttempts < s.maxReconnectAttempts
        && !s.isConnected then
      let n := s.currentReconnectAttempts + 1
      let delay := pyMin (s.reconnectDelay * 2 ^ (n - 1)) s.maxReconnectDelay
      if outcomes n then
        ([⟨n, delay, true⟩], { s with currentReconnectAttempts := 0, isConnected := true })
      else
        let rest := reconnectLoopFuel outcomes fuel { s with currentReconnectAttempts := n }
        (⟨n, delay, false⟩ :: rest.1, rest.2)
    else
      ([], s)

/-- `OpenAIClient._reconnect_loop`: the while loop strictly increases the
attempt counter towards `max_reconnect_attempts` on every failed
iteration and breaks on success, so
`max_reconnect_attempts - current_reconnect_attempts` iterations of fuel
are exact. -/
def reconnectLoop (outcomes : Nat → Bool) (s : ClientState) :
    List ReconnectAttempt × ClientState :=
  reconnectLoopFuel outcomes (s.maxReconnectAttempts - s.currentReconnectAttempts) s

/-- The reconnect configuration installed by
`SessionManager._try_connect_openai` via `configure_reconnect(True, 10,
2.0, 60.0)`, as the client state at the start of a reconnect loop after a
disconnect. -/
def sessionManagerClientState : ClientState :=
  { autoReconnect := true
    maxReconnectAttempts := 10
    reconnectDelay := 2
    maxReconnectDelay := 60
    currentReconnectAttempts := 0
    isConnected := false }

/-! ## Connection registry (`ConnectionManager`) -/

/-- The two connection roles of `ConnectionManager.active_connections`. -/
inductive Role where
  | call
  | logs
deriving DecidableEq, Repr

/-- `ConnectionManager`: the per-role active connection pools and the
connection-to-type mapping, over an abstract connection-handle type. -/
structure ConnManager (C : Type) where
  activeCall : List C
  activeLogs : List C
  connection_types : List (C × Role)
deriving DecidableEq, Repr

/-- The freshly constructed `ConnectionManager()`: both pools empty. -/
def ConnManager.init (C : Type) : ConnManager C := ⟨[], [], []⟩

/-- The pool `active_connections[role]`. -/
def ConnManager.pool {C : Type} (m : ConnManager C) : Role → List C
  | Role.call => m.activeCall
  | Role.logs => m.activeLogs

/-- Python dict assignment `self.connection_types[websocket] = t`. -/
def updateConnType {C : Type} [DecidableEq C] (h : List (C × Role)) (ws : C) (t : Role) :
    List (C × Role) :=
  (h.filter fun p => p.1 ≠ ws) ++ [(ws, t)]

/-- `ConnectionManager.connect(websocket, connection_type)`: close every
previously held connection of the same role and clear that pool, then
append the new connection and record its type.  The returned list is the
connections that were closed (evicted). -/
def ConnManager.connect {C : Type} [DecidableEq C] (m : ConnManager C) (ws : C) (t : Role) :
    ConnManager C × List C :=
  match t with
  | Role.call =>
    ({ m with activeCall := [ws]
              connection_types := updateConnType m.connection_types ws t }, m.activeCall)
  | Role.logs =>
    ({ m with activeLogs := [ws]
              connection_types := updateConnType m.connection_types ws t }, m.activeLogs)

/-! ## Sequenced runs and the end-to-end scenario -/

/-- Process a sequence of inbound Twilio `media` frames through
`_handle_twilio_media`, keeping the resulting bridge state. -/
def runTwilioMediaSeq (b : Bridge) (msgs : List TwilioMedia) : Bridge :=
  msgs.foldl (fun acc m => (handleTwilioMedia acc m).1) b

/-- Process a sequence of `ConnectionManager.connect` accept operations. -/
def applyAccepts {C : Type} [DecidableEq C] (m : ConnManager C) (ops : List (C × Role)) :
    ConnManager C :=
  ops.foldl (fun acc op => (acc.connect op.1 op.2).1) m

/-- An argument-parse oracle for scenario runs whose events never reach the
function-call path. -/
def scenarioParse : String → Option Unit := fun _ => some ()

/-- A handler-run oracle for scenario runs whose events never reach the
function-call path. -/
def scenarioRun : RunOutcome := RunOutcome.ok ""

/-- The bridge right after the telephony leg attaches
(`handle_twilio_connection`): fresh session state, a Twilio websocket, no
frontend, no OpenAI client yet. -/
def endToEndBridge0 : Bridge :=
  { state := SessionState.init
    twilioConnected := true
    frontendConnected := false
    openaiPresent := false
    openaiConnected := false }

/-- After the Twilio `start` event with stream id "MZ123" (OpenAI connect
succeeding). -/
def endToEndAfterStart : Bridge :=
  handleTwilioStart true endToEndBridge0 (some "MZ123")

/-- After the Twilio `media` chunk with timestamp 1000. -/
def endToEndAfterMedia : Bridge :=
  (handleTwilioMedia endToEndAfterStart ⟨some (PyVal.int 1000), some "UEFZTE9BRA=="⟩).1

/-- After the speech `response.audio.delta` event with item id "a1". -/
def endToEndAfterDelta : Bridge × List Command :=
  handleOpenAIMessage scenarioParse scenarioRun endToEndAfterMedia
    (OpenAIIn.audioDelta (some "a1") "REVMVEE=")

/-- After the speech `input_audio_buffer.speech_started` event. -/
def endToEndAfterSpeech : Bridge × List Command :=
  handleOpenAIMessage scenarioParse scenarioRun endToEndAfterDelta.1 OpenAIIn.speechStarted

/-- A concrete bridge used to instantiate the truncation theorems: stream
id "MZ123", latest media timestamp 3, response start 5, in-flight item
"a1", all three legs attached. -/
def sampleBridge : Bridge :=
  { state := { stream_sid := some "MZ123"
               latest_media_timestamp := some 3
               response_start_timestamp := some 5
               last_assistant_item := some "a1" }
    twilioConnected := true
    frontendConnected := false
    openaiPresent := true
    openaiConnected := true }

/-! ## Helper lemmas -/

theorem safeInt_ofOptInt (o : Option Int) : safeInt (PyVal.ofOptInt o) = o.getD 0 := by
  cases o <;> rfl

theorem handleTruncation_of_guard (b : Bridge)
    (h : (pyFalsyStr b.state.last_assistant_item || b.state.response_start_timestamp.isNone) = true) :
    handleTruncation b = (b, []) := by
  simp only [handleTruncation, h, if_true]

theorem handleTruncation_reset (b : Bridge)
    (h : (pyFalsyStr b.state.last_assistant_item || b.state.response_start_timestamp.isNone) = false) :
    (handleTruncation b).1.state.last_assistant_item = Option.none
    ∧ (handleTruncation b).1.state.response_start_timestamp = Option.none := by
  simp [handleTruncation, h]

theorem handleTwilioMedia_latest (b : Bridge) (m : TwilioMedia) :
    (handleTwilioMedia b m).1.state.latest_media_timestamp
      = some (safeInt (m.timestamp.getD (PyVal.int 0))) := by
  unfold handleTwilioMedia
  split <;> rfl

/-! ## Claim theorems -/

/-- C1: when `last_assistant_item` carries a (truthy) item and
`response_start_timestamp` is set, and an OpenAI client is present to
receive the command, `_handle_truncation` emits a
`conversation.item.truncate` whose `audio_end_ms` is
`max(latest_media_timestamp - response_start_timestamp, 0)`; this value is
never negative, and it is 0 whenever
`latest_media_timestamp ≤ response_start_timestamp`. -/
theorem truncation_audio_end_ms (b : Bridge) (item : String) (r : Int)
    (hitem : b.state.last_assistant_item = some item) (hne : item ≠ "")
    (hresp : b.state.response_start_timestamp = some r)
    (hclient : b.openaiPresent = true) :
    Command.toOpenAI (OpenAIOut.truncate item 0
        (max (safeInt (PyVal.ofOptInt b.state.latest_media_timestamp) - r) 0))
      ∈ (handleTruncation b).2
    ∧ 0 ≤ max (safeInt (PyVal.ofOptInt b.state.latest_media_timestamp) - r) 0
    ∧ (safeInt (PyVal.ofOptInt b.state.latest_media_timestamp) ≤ r →
        max (safeInt (PyVal.ofOptInt b.state.latest_media_timestamp) - r) 0 = 0) := by
  refine ⟨?_, le_max_right _ _, fun h => max_eq_right (sub_nonpos.mpr h)⟩
  unfold handleTruncation
  rw [hitem, hresp]
  simp [pyFalsyStr, hne, hclient, safeInt, PyVal.ofOptInt]

/-- C1 witness at `sampleBridge` (latest 3 ≤ response start 5, item
"a1"): the emitted `audio_end_ms` is 0. -/
theorem truncation_audio_end_ms_witness :
    Command.toOpenAI (OpenAIOut.truncate "a1" 0
        (max (safeInt (PyVal.ofOptInt sampleBridge.state.latest_media_timestamp) - 5) 0))
      ∈ (handleTruncation sampleBridge).2
    ∧ 0 ≤ max (safeInt (PyVal.ofOptInt sampleBridge.state.latest_media_timestamp) - 5) 0
    ∧ max (safeInt (PyVal.ofOptInt sampleBridge.state.latest_media_timestamp) - 5) 0 = 0 :=
  ⟨(truncation_audio_end_ms sampleBridge "a1" 5 rfl (by decide) rfl rfl).1,
   (truncation_audio_end_ms sampleBridge "a1" 5 rfl (by decide) rfl rfl).2.1,
   (truncation_audio_end_ms sampleBridge "a1" 5 rfl (by decide) rfl rfl).2.2 (by decide)⟩

/-- C9: `_handle_truncation` with `last_assistant_item = None` or
`response_start_timestamp = None` emits no command at all and leaves the
session state (indeed the whole bridge) unchanged. -/
theorem truncation_noop_without_item (b : Bridge)
    (h : b.state.last_assistant_item = Option.none
       ∨ b.state.response_start_timestamp = Option.none) :
    handleTruncation b = (b, []) := by
  apply handleTruncation_of_guard
  rcases h with h | h <;> rw [h] <;> simp [pyFalsyStr]

/-- C9 witness at the fresh bridge (both fields `None`). -/
theorem truncation_noop_without_item_witness :
    endToEndBridge0.state.last_assistant_item = Option.none
    ∧ handleTruncation endToEndBridge0 = (endToEndBridge0, []) :=
  ⟨rfl, truncation_noop_without_item endToEndBridge0 (Or.inl rfl)⟩

/-- C10: once the truncation guard passes, `_handle_truncation` resets
`last_assistant_item` and `response_start_timestamp` to `None`
unconditionally (whatever the OpenAI-client and telephony-leg flags are),
and consequently, from every starting bridge, a second consecutive
`speech_started` truncation is a no-op that emits nothing. -/
theorem truncation_resets_then_noop (b : Bridge) (item : String) (r : Int)
    (hitem : b.state.last_assistant_item = some item) (hne : item ≠ "")
    (hresp : b.state.response_start_timestamp = some r) :
    ((handleTruncation b).1.state.last_assistant_item = Option.none
     ∧ (handleTruncation b).1.state.response_start_timestamp = Option.none)
    ∧ ∀ c : Bridge, handleTruncation (handleTruncation c).1 = ((handleTruncation c).1, []) := by
  constructor
  · apply handleTruncation_reset
    rw [hitem, hresp]
    simp [pyFalsyStr, hne]
  · intro c
    rcases Bool.eq_false_or_eq_true
        (pyFalsyStr c.state.last_assistant_item || c.state.response_start_timestamp.isNone)
      with hg | hg
    · have h1 := handleTruncation_of_guard c hg
      rw [h1]
      exact h1
    · obtain ⟨h1, _⟩ := handleTruncation_reset c hg
      apply handleTruncation_of_guard
      rw [h1]
      simp [pyFalsyStr]


/-- C10 witness at `sampleBridge`, with the second-truncation no-op
instantiated at `sampleBridge` as well. -/
theorem truncation_resets_then_noop_witness :
    ((handleTruncation sampleBridge).1.state.last_assistant_item = Option.none
     ∧ (handleTruncation sampleBridge).1.state.response_start_timestamp = Option.none)
    ∧ handleTruncation (handleTruncation sampleBridge).1
        = ((handleTruncation sampleBridge).1, []) :=
  ⟨(truncation_resets_then_noop sampleBridge "a1" 5 rfl (by decide) rfl).1,
   (truncation_resets_then_noop sampleBridge "a1" 5 rfl (by decide) rfl).2 sampleBridge⟩

/-- C4: after any non-empty sequence of Twilio `media` frames,
`latest_media_timestamp` equals the last frame's timestamp coerced through
`_safe_int` (missing field → the `.get` default 0); `_safe_int` sends
`None`, non-numeric strings and non-coercible objects to 0 rather than
failing. -/
theorem latest_media_timestamp_tracks_last (b : Bridge) (msgs : List TwilioMedia)
    (lastMsg : TwilioMedia) (h : msgs.getLast? = some lastMsg) :
    (runTwilioMediaSeq b msgs).state.latest_media_timestamp
      = some (safeInt (lastMsg.timestamp.getD (PyVal.int 0)))
    ∧ safeInt PyVal.none = 0 ∧ safeInt PyVal.other = 0
    ∧ ∀ s : String, parseIntLit s = Option.none → safeInt (PyVal.str s) = 0 := by
  refine ⟨?_, rfl, rfl, fun s hs => by simp [safeInt, hs]⟩
  induction msgs generalizing b with
  | nil => simp at h
  | cons m ms ih =>
    cases ms with
    | nil =>
      simp only [List.getLast?_singleton, Option.some.injEq] at h
      subst h
      simpa [runTwilioMediaSeq] using handleTwilioMedia_latest b m
    | cons m2 ms2 =>
      have h' : (m2 :: ms2).getLast? = some lastMsg := by
        rwa [List.getLast?_cons_cons] at h
      have := ih h' (b := (handleTwilioMedia b m).1)
      simpa [runTwilioMediaSeq] using this

/-- The last frame of the C4 witness sequence: a non-numeric string
timestamp. -/
def sampleMediaLast : TwilioMedia := ⟨some (PyVal.str "abc"), Option.none⟩

/-- The C4 witness sequence of Twilio `media` frames. -/
def sampleMediaSeq : List TwilioMedia :=
  [⟨some (PyVal.int 7), some "QQ=="⟩, sampleMediaLast]

/-- C4 witness: two frames, the last with a non-numeric string timestamp
coercing to 0. -/
theorem latest_media_timestamp_tracks_last_witness :
    sampleMediaSeq.getLast? = some sampleMediaLast
    ∧ (runTwilioMediaSeq endToEndBridge0 sampleMediaSeq).state.latest_media_timestamp
        = some (safeInt (sampleMediaLast.timestamp.getD (PyVal.int 0)))
    ∧ safeInt (PyVal.str "abc") = 0 :=
  ⟨by decide,
   (latest_media_timestamp_tracks_last endToEndBridge0 sampleMediaSeq sampleMediaLast
      (by decide)).1,
   (latest_media_timestamp_tracks_last endToEndBridge0 sampleMediaSeq sampleMediaLast
      (by decide)).2.2.2 "abc" (by decide)⟩

/-- C2: the end-to-end barge-in scenario — media `start` (stream "MZ123"),
media chunk at timestamp 1000, speech `response.audio.delta` for item
"a1", then `speech_started` — captures
`response_start_timestamp = 1000` at delta time and then emits exactly a
`conversation.item.truncate` for item "a1" with `audio_end_ms = 0`
followed by a `clear` command carrying the current stream id. -/
theorem end_to_end_barge_in :
    endToEndAfterDelta.1.state.response_start_timestamp = some 1000
    ∧ endToEndAfterSpeech.2
        = [Command.toOpenAI (OpenAIOut.truncate "a1" 0 0),
           Command.toTwilio (TwilioOut.clear "MZ123")] := by
  decide

theorem connect_pool_same {C : Type} [DecidableEq C] (m : ConnManager C) (ws : C) (t : Role) :
    ((m.connect ws t).1.pool t) = [ws] := by
  cases t <;> rfl

theorem connect_pool_other {C : Type} [DecidableEq C] (m : ConnManager C) (ws : C)
    {t u : Role} (h : u ≠ t) : ((m.connect ws t).1.pool u) = m.pool u := by
  cases t <;> cases u <;> first | rfl | exact absurd rfl h

theorem connect_evicted {C : Type} [DecidableEq C] (m : ConnManager C) (ws : C) (t : Role) :
    (m.connect ws t).2 = m.pool t := by
  cases t <;> rfl

theorem applyAccepts_pool_len {C : Type} [DecidableEq C] (ops : List (C × Role)) :
    ∀ (m : ConnManager C), (∀ u : Role, (m.pool u).length ≤ 1) →
      ∀ u : Role, ((applyAccepts m ops).pool u).length ≤ 1 := by
  induction ops with
  | nil =>
    intro m hm u
    simpa [applyAccepts] using hm u
  | cons op rest ih =>
    intro m hm u
    have hstep : ∀ v : Role, (((m.connect op.1 op.2).1).pool v).length ≤ 1 := by
      intro v
      by_cases hv : v = op.2
      · subst hv
        rw [connect_pool_same]
        simp
      · rw [connect_pool_other m op.1 hv]
        exact hm v
    have := ih (m.connect op.1 op.2).1 hstep u
    simpa [applyAccepts] using this

/-- C5: `ConnectionManager.connect` enforces single occupancy per role:
it closes exactly the previously held connections of the same role, the
new connection becomes that role's only active one, the other role's pool
is untouched, and along any sequence of accepts starting from the fresh
manager no role ever holds more than one connection. -/
theorem registry_single_occupancy {C : Type} [DecidableEq C] (m : ConnManager C)
    (ws : C) (t : Role) (ops : List (C × Role)) :
    ((m.connect ws t).1.pool t = [ws])
    ∧ ((m.connect ws t).2 = m.pool t)
    ∧ (∀ u : Role, u ≠ t → (m.connect ws t).1.pool u = m.pool u)
    ∧ (∀ u : Role, ((applyAccepts (ConnManager.init C) ops).pool u).length ≤ 1) :=
  ⟨connect_pool_same m ws t, connect_evicted m ws t,
   fun _ hu => connect_pool_other m ws hu,
   applyAccepts_pool_len ops (ConnManager.init C)
     (fun u => by cases u <;> simp [ConnManager.init, ConnManager.pool])⟩

/-- C5 witness: a second `call` accept evicts the old call connection and
leaves one active connection per role. -/
theorem registry_single_occupancy_witness :
    ((ConnManager.connect (⟨[5], [7], []⟩ : ConnManager ℕ) 3 Role.call).1.pool Role.call = [3])
    ∧ ((ConnManager.connect (⟨[5], [7], []⟩ : ConnManager ℕ) 3 Role.call).2
        = (⟨[5], [7], []⟩ : ConnManager ℕ).pool Role.call)
    ∧ ((ConnManager.connect (⟨[5], [7], []⟩ : ConnManager ℕ) 3 Role.call).1.pool Role.logs
        = (⟨[5], [7], []⟩ : ConnManager ℕ).pool Role.logs)
    ∧ (((applyAccepts (ConnManager.init ℕ) [(1, Role.logs), (2, Role.logs)]).pool
          Role.logs).length ≤ 1) :=
  ⟨(registry_single_occupancy (⟨[5], [7], []⟩ : ConnManager ℕ) 3 Role.call
      [(1, Role.logs), (2, Role.logs)]).1,
   (registry_single_occupancy (⟨[5], [7], []⟩ : ConnManager ℕ) 3 Role.call
      [(1, Role.logs), (2, Role.logs)]).2.1,
   (registry_single_occupancy (⟨[5], [7], []⟩ : ConnManager ℕ) 3 Role.call
      [(1, Role.logs), (2, Role.logs)]).2.2.1 Role.logs (by decide),
   (registry_single_occupancy (⟨[5], [7], []⟩ : ConnManager ℕ) 3 Role.call
      [(1, Role.logs), (2, Role.logs)]).2.2.2 Role.logs⟩

/-- A string is valid JSON carrying an `error` key: it is the `json.dumps`
serialization of an object one of whose fields is named "error". -/
def isErrorJson (s : String) : Prop :=
  ∃ j : JsonObj, s = j.dumps ∧ j.hasKey "error" = true

/-- C6: a tool-call naming an unregistered function, or whose argument
string fails JSON parsing, makes `handle_function_call` return (it is a
total function, so it never raises) the serialization of a JSON object
carrying an `error` key; and — given an OpenAI client — the bridge still
sends a `conversation.item.create` carrying that result as the
`function_call_output`, immediately followed by `response.create`. -/
theorem function_call_error_path (parse : String → Option Unit) (run : RunOutcome)
    (b : Bridge) (name arguments callId : Option String)
    (hcase : parse (arguments.getD "\x7b\x7d") = Option.none
           ∨ (name.getD "") ∉ defaultRegisteredFunctions)
    (hclient : b.openaiPresent = true) :
    isErrorJson (handleFunctionCall defaultRegisteredFunctions (name.getD "")
        (parse (arguments.getD "\x7b\x7d")) run)
    ∧ (handleFunctionCallItem parse run b name arguments callId).2
        = [Command.toOpenAI (OpenAIOut.itemCreate (callId.getD "")
             (handleFunctionCall defaultRegisteredFunctions (name.getD "")
               (parse (arguments.getD "\x7b\x7d")) run)),
           Command.toOpenAI OpenAIOut.responseCreate] := by
  constructor
  · by_cases hreg : (name.getD "") ∈ defaultRegisteredFunctions
    · rcases hcase with hparse | habs
      · refine ⟨⟨[("error", "Invalid JSON arguments for function call")]⟩, ?_, rfl⟩
        simp [handleFunctionCall, hreg, hparse]
      · exact absurd hreg habs
    · refine ⟨⟨[("error", "No handler found for function: " ++ (name.getD ""))]⟩, ?_, rfl⟩
      simp [handleFunctionCall, hreg]
  · simp [handleFunctionCallItem, hclient]


/-- C6 witness: an unknown function name with an unparsable argument
string. -/
theorem function_call_error_path_witness :
    isErrorJson (handleFunctionCall defaultRegisteredFunctions ((some "mystery_fn").getD "")
        ((fun _ => (Option.none : Option Unit)) ((some "not json").getD "\x7b\x7d"))
        (RunOutcome.ok ""))
    ∧ (handleFunctionCallItem (fun _ => (Option.none : Option Unit)) (RunOutcome.ok "")
          sampleBridge (some "mystery_fn") (some "not json") (some "c1")).2
        = [Command.toOpenAI (OpenAIOut.itemCreate ((some "c1").getD "")
             (handleFunctionCall defaultRegisteredFunctions ((some "mystery_fn").getD "")
               ((fun _ => (Option.none : Option Unit)) ((some "not json").getD "\x7b\x7d"))
               (RunOutcome.ok ""))),
           Command.toOpenAI OpenAIOut.responseCreate] :=
  function_call_error_path (fun _ => (Option.none : Option Unit)) (RunOutcome.ok "")
    sampleBridge (some "mystery_fn") (some "not json") (some "c1")
    (Or.inl rfl) rfl

theorem reconnectLoopFuel_mem (outcomes : Nat → Bool) :
    ∀ (fuel : Nat) (s : ClientState) (it : ReconnectAttempt),
      it ∈ (reconnectLoopFuel outcomes fuel s).1 →
      it.delay = min (s.reconnectDelay * 2 ^ (it.n - 1)) s.maxReconnectDelay
      ∧ s.currentReconnectAttempts + 1 ≤ it.n
      ∧ it.n ≤ s.maxReconnectAttempts := by
  intro fuel
  induction fuel with
  | zero =>
    intro s it h
    simp [reconnectLoopFuel] at h
  | succ fuel ih =>
    intro s it h
    rw [reconnectLoopFuel] at h
    by_cases hg : (s.autoReconnect && decide (s.currentReconnectAttempts < s.maxReconnectAttempts)
        && !s.isConnected) = true
    · rw [if_pos hg] at h
      have hlt : s.currentReconnectAttempts < s.maxReconnectAttempts := by
        have := (Bool.and_eq_true _ _).mp ((Bool.and_eq_true _ _).mp hg).1
        exact of_decide_eq_true this.2
      by_cases ho : outcomes (s.currentReconnectAttempts + 1) = true
      · rw [if_pos ho] at h
        simp only [List.mem_singleton] at h
        subst h
        exact ⟨pyMin_eq_min _ _, Nat.le_refl _, hlt⟩
      · rw [if_neg (fun hc => ho hc)] at h
        simp only [List.mem_cons] at h
        rcases h with h | h
        · subst h
          exact ⟨pyMin_eq_min _ _, Nat.le_refl _, hlt⟩
        · obtain ⟨hd, hlo, hhi⟩ := ih _ it h
          dsimp only at hd hlo hhi
          exact ⟨hd, by omega, hhi⟩
    · rw [if_neg (fun hc => hg hc)] at h
      simp at h

/-- C7: every iteration of the reconnect loop sleeps exactly
`min(initial_delay * 2 ** (attempts - 1), max_delay)` before its attempt,
the attempt numbers start at 1, no delay ever exceeds the ceiling, and
for the configured `initial_delay = 2.0`, `max_delay = 60.0`,
`max_attempts = 10` the delay sequence is
`2, 4, 8, 16, 32, 60, 60, 60, 60, 60`. -/
theorem reconnect_backoff_delay :
    (∀ (s : ClientState) (outcomes : Nat → Bool) (it : ReconnectAttempt),
        it ∈ (reconnectLoop outcomes s).1 →
        it.delay = min (s.reconnectDelay * 2 ^ (it.n - 1)) s.maxReconnectDelay
        ∧ 1 ≤ it.n ∧ it.delay ≤ s.maxReconnectDelay)
    ∧ (reconnectLoop (fun _ => false) sessionManagerClientState).1.map ReconnectAttempt.delay
        = [2, 4, 8, 16, 32, 60, 60, 60, 60, 60] := by
  constructor
  · intro s outcomes it h
    obtain ⟨hd, hlo, _⟩ := reconnectLoopFuel_mem outcomes
      (s.maxReconnectAttempts - s.currentReconnectAttempts) s it h
    refine ⟨hd, by omega, ?_⟩
    rw [hd]
    exact min_le_right _ _
  · norm_num [reconnectLoop, reconnectLoopFuel, sessionManagerClientState, pyMin]

/-- C7 witness: the first attempt of the configured failing run sleeps
`min(2 * 2 ** 0, 60) = 2` seconds. -/
theorem reconnect_backoff_delay_witness :
    (⟨1, 2, false⟩ : ReconnectAttempt).delay
        = min (sessionManagerClientState.reconnectDelay
            * 2 ^ ((⟨1, 2, false⟩ : ReconnectAttempt).n - 1))
          sessionManagerClientState.maxReconnectDelay
    ∧ 1 ≤ (⟨1, 2, false⟩ : ReconnectAttempt).n
    ∧ (⟨1, 2, false⟩ : ReconnectAttempt).delay
        ≤ sessionManagerClientState.maxReconnectDelay :=
  reconnect_backoff_delay.1 sessionManagerClientState (fun _ => false) ⟨1, 2, false⟩
    (by norm_num [reconnectLoop, reconnectLoopFuel, sessionManagerClientState, pyMin])

theorem reconnectLoopFuel_allFail (outcomes : Nat → Bool) (hfail : ∀ n, outcomes n = false) :
    ∀ (fuel : Nat) (s : ClientState), s.autoReconnect = true → s.isConnected = false →
      (reconnectLoopFuel outcomes fuel s).2.isConnected = false
      ∧ (reconnectLoopFuel outcomes fuel s).2.maxReconnectAttempts = s.maxReconnectAttempts
      ∧ (reconnectLoopFuel outcomes fuel s).2.currentReconnectAttempts
          = s.currentReconnectAttempts
            + min fuel (s.maxReconnectAttempts - s.currentReconnectAttempts)
      ∧ (reconnectLoopFuel outcomes fuel s).1.length
          = min fuel (s.maxReconnectAttempts - s.currentReconnectAttempts) := by
  intro fuel
  induction fuel with
  | zero =>
    intro s hauto hconn
    simp [reconnectLoopFuel, hconn]
  | succ fuel ih =>
    intro s hauto hconn
    rcases Nat.lt_or_ge s.currentReconnectAttempts s.maxReconnectAttempts with hlt | hge
    · have hg : (s.autoReconnect
          && decide (s.currentReconnectAttempts < s.maxReconnectAttempts)
          && !s.isConnected) = true := by
        simp [hauto, hconn, hlt]
      have hstep : reconnectLoopFuel outcomes (fuel + 1) s
          = (⟨s.currentReconnectAttempts + 1,
              pyMin (s.reconnectDelay * 2 ^ (s.currentReconnectAttempts + 1 - 1))
                s.maxReconnectDelay, false⟩
              :: (reconnectLoopFuel outcomes fuel
                    { s with currentReconnectAttempts := s.currentReconnectAttempts + 1 }).1,
             (reconnectLoopFuel outcomes fuel
                { s with currentReconnectAttempts := s.currentReconnectAttempts + 1 }).2) := by
        rw [reconnectLoopFuel, if_pos hg]
        simp [hfail]
      obtain ⟨h1, h2, h3, h4⟩ := ih
        { s with currentReconnectAttempts := s.currentReconnectAttempts + 1 } hauto hconn
      dsimp only at h1 h2 h3 h4
      rw [hstep]
      refine ⟨h1, h2, ?_, ?_⟩
      · rw [h3]
        omega
      · simp only [List.length_cons, h4]
        omega
    · have hg : (s.autoReconnect
          && decide (s.currentReconnectAttempts < s.maxReconnectAttempts)
          && !s.isConnected) = false := by
        simp [hauto, hconn]
        omega
      have hz : s.maxReconnectAttempts - s.currentReconnectAttempts = 0 := by omega
      rw [reconnectLoopFuel, if_neg (by simp [hg])]
      simp [hz, hconn]

/-- C8: with every connection attempt failing, a reconnect loop started
from a fresh counter leaves the client disconnected, stops after exactly
`max_reconnect_attempts` attempts (the counter ends at, and no attempt
number exceeds, that bound), and a subsequent run of the loop from the
resulting state makes no further attempt at all. -/
theorem reconnect_exhaustion (s : ClientState) (outcomes : Nat → Bool)
    (hfail : ∀ n, outcomes n = false) (hauto : s.autoReconnect = true)
    (hconn : s.isConnected = false) (hfresh : s.currentReconnectAttempts = 0) :
    (reconnectLoop outcomes s).2.isConnected = false
    ∧ (reconnectLoop outcomes s).2.currentReconnectAttempts = s.maxReconnectAttempts
    ∧ (reconnectLoop outcomes s).1.length = s.maxReconnectAttempts
    ∧ (reconnectLoop outcomes (reconnectLoop outcomes s).2).1 = []
    ∧ ∀ it ∈ (reconnectLoop outcomes s).1, it.n ≤ s.maxReconnectAttempts := by
  obtain ⟨h1, h2, h3, h4⟩ := reconnectLoopFuel_allFail outcomes hfail
    (s.maxReconnectAttempts - s.currentReconnectAttempts) s hauto hconn
  refine ⟨h1, ?_, ?_, ?_, ?_⟩
  · show (reconnectLoopFuel outcomes
        (s.maxReconnectAttempts - s.currentReconnectAttempts) s).2.currentReconnectAttempts
      = s.maxReconnectAttempts
    rw [h3]
    omega
  · show (reconnectLoopFuel outcomes
        (s.maxReconnectAttempts - s.currentReconnectAttempts) s).1.length
      = s.maxReconnectAttempts
    rw [h4]
    omega
  · have hc : (reconnectLoop outcomes s).2.currentReconnectAttempts
        = s.maxReconnectAttempts := by
      show (reconnectLoopFuel outcomes
          (s.maxReconnectAttempts - s.currentReconnectAttempts) s).2.currentReconnectAttempts
        = s.maxReconnectAttempts
      rw [h3]
      omega
    have hm : (reconnectLoop outcomes s).2.maxReconnectAttempts
        = s.maxReconnectAttempts := h2
    have hzero : (reconnectLoop outcomes s).2.maxReconnectAttempts
        - (reconnectLoop outcomes s).2.currentReconnectAttempts = 0 := by omega
    show (reconnectLoopFuel outcomes
        ((reconnectLoop outcomes s).2.maxReconnectAttempts
          - (reconnectLoop outcomes s).2.currentReconnectAttempts)
        (reconnectLoop outcomes s).2).1 = []
    rw [hzero]
    rfl
  · intro it h
    exact (reconnectLoopFuel_mem outcomes
      (s.maxReconnectAttempts - s.currentReconnectAttempts) s it h).2.2

/-- C8 witness: the configured client (10 attempts, all failing) ends
disconnected with its counter at 10, a re-run of the loop makes no
attempt, and the first attempt's number is within the budget. -/
theorem reconnect_exhaustion_witness :
    (reconnectLoop (fun _ => false) sessionManagerClientState).2.isConnected = false
    ∧ (reconnectLoop (fun _ => false) sessionManagerClientState).2.currentReconnectAttempts
        = sessionManagerClientState.maxReconnectAttempts
    ∧ (reconnectLoop (fun _ => false) sessionManagerClientState).1.length
        = sessionManagerClientState.maxReconnectAttempts
    ∧ (reconnectLoop (fun _ => false)
          (reconnectLoop (fun _ => false) sessionManagerClientState).2).1 = []
    ∧ (⟨1, 2, false⟩ : ReconnectAttempt).n
        ≤ sessionManagerClientState.maxReconnectAttempts :=
  ⟨(reconnect_exhaustion sessionManagerClientState (fun _ => false)
      (fun _ => rfl) rfl rfl rfl).1,
   (reconnect_exhaustion sessionManagerClientState (fun _ => false)
      (fun _ => rfl) rfl rfl rfl).2.1,
   (reconnect_exhaustion sessionManagerClientState (fun _ => false)
      (fun _ => rfl) rfl rfl rfl).2.2.1,
   (reconnect_exhaustion sessionManagerClientState (fun _ => false)
      (fun _ => rfl) rfl rfl rfl).2.2.2.1,
   (reconnect_exhaustion sessionManagerClientState (fun _ => false)
      (fun _ => rfl) rfl rfl rfl).2.2.2.2 ⟨1, 2, false⟩
     (by norm_num [reconnectLoop, reconnectLoopFuel, sessionManagerClientState, pyMin])⟩

/-- C3: the claim that `connect()` starts the read loop as a background
task and then sends `session.update` before returning does not hold of
the source: `connect` awaits the freshly created listener task
(`await asyncio.create_task(self._listen_messages())`), so on a
successful transport open the merged `session.update`, the `on_connected`
callback and the `True` return all happen only after the read loop has
run to completion (i.e. after the connection is already closed); no
non-blocking background spawn occurs anywhere in the trace.  The merge
semantics themselves (caller-supplied keys override the built-in
defaults, unspecified keys keep them) are as specified. -/
theorem connect_awaits_listener_before_session_update (ov : SessionConfigOverrides) :
    connectSteps true ov
      = [ConnectStep.openTransport, ConnectStep.setConnected true, ConnectStep.resetAttempts,
         ConnectStep.awaitListenLoopCompletion,
         ConnectStep.sendSessionUpdate (mergeSessionConfig ov),
         ConnectStep.invokeOnConnected, ConnectStep.returnResult true]
    ∧ ConnectStep.spawnListenLoopInBackground ∉ connectSteps true ov
    ∧ mergeSessionConfig SessionConfigOverrides.empty = OpenAISessionConfig.default
    ∧ mergeSessionConfig { SessionConfigOverrides.empty with voice := some "alloy" }
        = { OpenAISessionConfig.default with voice := "alloy" } := by
  refine ⟨rfl, ?_, rfl, rfl⟩
  simp [connectSteps]
